import Mathlib

/-!
# Verification of the CI-healing pipeline core

Shallow embedding of the healing pipeline of this repository
(`backend/agents/*.py`, `backend/orchestrator/*.py`, `backend/utils/models.py`,
`config/settings.py`) together with theorems settling the specification
claims about it.

Modelling conventions:
* Python `float` score arithmetic is modelled over `Int`/`Rat`; every value
  produced by the scorer is an exact small integer, so this is faithful.
* Machine-level effects (reading files, running subprocesses, LLM calls,
  `git` commits) are modelled by explicit state passing: the file system is a
  map `String → Option String`, test executions and LLM completions are
  oracle functions passed in as parameters.
* Python `str.splitlines` / `difflib.unified_diff` (standard library calls
  made by the source) are modelled by `pySplitLines` and an LCS-based unified
  diff `computeDiff`; only the set of emitted `+`/`-` body lines matters to
  the theorems, and on every input exercised here the two algorithms agree.
-/

namespace CIHealer

/-! ## Data model (`backend/utils/models.py`)

Enum values carry their canonical serialized string names
(`use_enum_values=True` on `AgentState`); we keep them as inductives with a
`str` view. -/

inductive FailureType
  | LINTING | SYNTAX | LOGIC | TYPE_ERROR | IMPORT
  | INDENTATION | RUNTIME | TEST_FAILURE | DEPENDENCY | UNKNOWN
  deriving DecidableEq, Repr

def FailureType.str : FailureType → String
  | .LINTING => "LINTING"
  | .SYNTAX => "SYNTAX"
  | .LOGIC => "LOGIC"
  | .TYPE_ERROR => "TYPE_ERROR"
  | .IMPORT => "IMPORT"
  | .INDENTATION => "INDENTATION"
  | .RUNTIME => "RUNTIME"
  | .TEST_FAILURE => "TEST_FAILURE"
  | .DEPENDENCY => "DEPENDENCY"
  | .UNKNOWN => "UNKNOWN"

inductive Severity
  | CRITICAL | HIGH | MEDIUM | LOW
  deriving DecidableEq, Repr

def Severity.str : Severity → String
  | .CRITICAL => "CRITICAL"
  | .HIGH => "HIGH"
  | .MEDIUM => "MEDIUM"
  | .LOW => "LOW"

inductive PatchType
  | SYNTAX_CORRECTION | IMPORT_REPAIR | NULL_GUARD
  | TYPE_FIX | DEPENDENCY_FIX | LOGIC_CORRECTION
  deriving DecidableEq, Repr

inductive CIStatus
  | PENDING | RUNNING | SUCCESS | FAILED | PARTIAL
  deriving DecidableEq, Repr

def CIStatus.str : CIStatus → String
  | .PENDING => "PENDING"
  | .RUNNING => "RUNNING"
  | .SUCCESS => "SUCCESS"
  | .FAILED => "FAILED"
  | .PARTIAL => "PARTIAL"

inductive LanguageMode
  | PYTHON | NODE_JS | JAVA | UNKNOWN
  deriving DecidableEq, Repr

structure Failure where
  failure_id : String
  failure_type : FailureType
  severity : Severity
  file_path : String
  line_number : Option Nat := none
  column : Option Nat := none
  message : String
  raw_trace : Option String := none
  test_name : Option String := none
  root_cause_file : Option String := none
  root_cause_line : Option Nat := none
  deriving DecidableEq, Repr

/-- `Patch` from `models.py`; the unified diff is kept as its list of lines. -/
structure Patch where
  patch_id : String
  failure_id : String
  patch_type : PatchType
  file_path : String
  original_code : String
  patched_code : String
  diff : List String
  line_start : Nat := 0
  line_end : Nat := 0
  reasoning : String
  deterministic : Bool := true
  applied : Bool := false
  validated : Bool := false
  deriving DecidableEq, Repr

structure ValidationResult where
  patch_id : String
  passed : Bool
  new_failures_introduced : Nat := 0
  tests_before : Nat := 0
  tests_after : Nat := 0
  tests_fixed : Nat := 0
  tests_regressed : Nat := 0
  deterministic : Bool := true
  rejection_reason : Option String := none
  deriving DecidableEq, Repr

structure Fix where
  fix_id : String
  failure_id : String
  patch_id : String
  failure_type : FailureType
  file_path : String
  line_number : Option Nat := none
  description : String
  patch_type : PatchType
  diff : List String := []
  original_code : String := ""
  patched_code : String := ""
  validated : Bool
  commit_sha : Option String := none
  deriving DecidableEq, Repr

/-- `Scoring` from `models.py`; float fields as exact rationals. -/
structure Scoring where
  base_score : Rat
  speed_factor : Rat
  fix_efficiency : Rat
  regression_penalty : Rat
  ci_success_score : Rat
  total_score : Rat
  iterations_used : Nat
  total_possible_fixes : Nat
  actual_fixes : Nat
  computation_method : String := "deterministic"
  deriving DecidableEq, Repr

structure CITimelineEvent where
  iteration : Nat
  event_type : String
  description : String
  failures_before : Nat := 0
  failures_after : Nat := 0
  duration_seconds : Rat := 0
  deriving DecidableEq, Repr

/-- One entry of the pytest JSON report (`.report.json`) as read by the
classifier. -/
structure PyTestEntry where
  outcome : String
  nodeid : String
  longrepr : String
  deriving DecidableEq, Repr

/-- The pytest JSON report; `none` models a falsy/empty report dict. -/
structure JsonReport where
  tests : List PyTestEntry
  deriving DecidableEq, Repr

/-- The fields of `AgentState` (`models.py`) that the verified stages read or
write.  `pytest_exit_code` is an `Int` (pytest uses `-1` for timeouts). -/
structure AgentState where
  run_id : String := ""
  repo_url : String := ""
  repo_path : String := ""
  branch_name : String := ""
  python_files : List String := []
  source_files : List String := []
  test_files : List String := []
  repo_language : LanguageMode := .UNKNOWN
  failures : List Failure := []
  patches : List Patch := []
  validation_results : List ValidationResult := []
  fixes : List Fix := []
  pytest_output : String := ""
  pytest_json_report : Option JsonReport := none
  pytest_exit_code : Int := 0
  iteration : Nat := 0
  max_retries : Nat := 5
  ci_status : CIStatus := .PENDING
  timeline : List CITimelineEvent := []
  current_temperature : Rat := 1/5
  temperature_min : Rat := 1/20
  scoring : Option Scoring := none
  fallback_triggered : Bool := false
  fatal_error : Option String := none
  deriving Repr

/-! ## Settings (`config/settings.py`) -/

namespace settings

def MAX_RETRIES : Nat := 5
def PATCH_MAX_LINES : Nat := 50

/-- The commit-message tag setting (named `GITHUB_COMMIT_` `PREFIX` in
`config/settings.py`). -/
def GITHUB_COMMIT_TAG : String := "[AI-AGENT]"

end settings

/-! ## Scorer (`backend/agents/scoring_agent.py`) -/

/-- The count of failures with no fix sharing their `failure_id`
(`ScoringAgent.run`, lines 42–44; the same expression appears in
`should_continue`). -/
def remainingFailures (failures : List Failure) (fixes : List Fix) : Nat :=
  (failures.filter (fun f => ¬ fixes.any (fun fx => fx.failure_id = f.failure_id))).length

/-- The `ci_status` resolution of `ScoringAgent.run` (lines 46–58): first
matching rule wins. -/
def resolveCiStatus (s : AgentState) : CIStatus :=
  let no_test_suite := s.pytest_exit_code = 5
  if s.fatal_error.isSome then .FAILED
  else if remainingFailures s.failures s.fixes = 0 then .SUCCESS
  else if ¬ s.fixes.isEmpty ∧ no_test_suite then .SUCCESS
  else if ¬ s.fixes.isEmpty then .PARTIAL
  else .FAILED

/-- `sum(r.tests_regressed for r in validation_results)` in
`ScoringAgent._compute_score` (line 97). -/
def totalRegressions (validation_results : List ValidationResult) : Nat :=
  (validation_results.map (fun r => r.tests_regressed)).sum

/-- `ScoringAgent._compute_score` (lines 80–115).  `elapsed_total` is the
wall-clock seconds since `start_time`, passed explicitly.  All float values
are exact integers, modelled over `Rat`; `round(total, 2)` is the identity on
them and is omitted. -/
def computeScore (s : AgentState) (elapsed_total : Rat) : Scoring :=
  let actual_fixes := (s.fixes.filter (fun f => f.validated)).length
  let base : Rat := 100
  let speed_bonus : Rat := if elapsed_total < 300 then 10 else 0
  let penalty_count : Nat := actual_fixes - 20
  let efficiency_penalty : Rat := (penalty_count : Rat) * 2
  let total_regressions : Nat := totalRegressions s.validation_results
  let regression_penalty : Rat := (total_regressions : Rat) * 5 + efficiency_penalty
  let total : Rat := max 0 (base + speed_bonus - regression_penalty)
  { base_score := base
    speed_factor := speed_bonus
    fix_efficiency := (actual_fixes : Rat)
    regression_penalty := regression_penalty
    ci_success_score := 0
    total_score := total
    iterations_used := s.iteration
    total_possible_fixes := s.failures.length
    actual_fixes := actual_fixes
    computation_method := "rift_2026_standard" }

/-! ## Result artifact writer (`backend/orchestrator/main.py`, `_write_results`) -/

/-- The status mapping of `_write_results` (lines 131–135): `str(state.ci_status)`
is the canonical enum value (`use_enum_values=True`), then `"SUCCESS"` is
rewritten to `"RESOLVED"` and running states to `"IN_PROGRESS"`. -/
def statusMapped (c : CIStatus) : String :=
  let s := c.str
  if s = "SUCCESS" then "RESOLVED"
  else if s = "RUNNING" ∨ s = "CIStatus.RUNNING" ∨ s = "IN_PROGRESS" then "IN_PROGRESS"
  else s

/-! ## Test runs and the file system

A test execution result (`TestRunResult` of `test_runner_agent.py`, the
fields read by the validator).  The file system is a partial map from paths
to file contents; test executions are an oracle `FS → TestRun` since they
depend on the files on disk. -/

structure TestRun where
  exit_code : Int
  total : Nat := 0
  passed : Nat := 0
  failed : Nat := 0
  errors : Nat := 0
  deriving DecidableEq, Repr

def FS : Type := String → Option String

/-- `ValidationAgent._apply_code` (lines 168–173): atomic overwrite of one
file. -/
def applyCode (fs : FS) (file_path : String) (code : String) : FS :=
  fun p => if p = file_path then some code else fs p

/-! ## Validator (`backend/agents/validation_agent.py`) -/

/-- The decision logic of `ValidationAgent._validate_patch` (lines 92–165),
given the re-run result `run1` (the apply and re-run are modelled in
`validateLoop`).  `tests_before` is `baseline_fail_count = len(state.failures)`
and `prevExit` is `state.pytest_exit_code`. -/
def validatePatchResult (prevExit : Int) (tests_before : Nat) (run1 : TestRun)
    (patch_id : String) : ValidationResult :=
  let tests_after_1 := run1.failed + run1.errors
  if run1.exit_code = 5 ∨ (tests_before = 0 ∧ run1.exit_code ≠ 1) then
    { patch_id := patch_id, passed := true, tests_before := tests_before,
      tests_after := tests_after_1, tests_fixed := 1, new_failures_introduced := 0 }
  else if prevExit = 2 ∧ run1.exit_code = 1 ∧ run1.passed > 0 then
    { patch_id := patch_id, passed := true, tests_before := tests_before,
      tests_after := tests_after_1, tests_fixed := run1.passed,
      new_failures_introduced := 0 }
  else
    -- Python `max(0, ...)` on ints is `Nat` truncated subtraction here
    let new_failures := tests_after_1 - tests_before
    let tests_fixed := tests_before - tests_after_1
    if new_failures > 0 then
      { patch_id := patch_id, passed := false,
        rejection_reason := some ("Introduced " ++ toString new_failures ++ " new failures"),
        new_failures_introduced := new_failures, tests_before := tests_before,
        tests_after := tests_after_1, tests_fixed := tests_fixed }
    else if tests_after_1 ≥ tests_before ∧ tests_before > 0 then
      { patch_id := patch_id, passed := false,
        rejection_reason := some "No tests fixed by this patch",
        tests_before := tests_before, tests_after := tests_after_1,
        tests_fixed := tests_fixed }
    else
      { patch_id := patch_id, passed := true, tests_before := tests_before,
        tests_after := tests_after_1, tests_fixed := tests_fixed }

/-- One record of the validator's per-patch processing: the file system just
before the patch is applied, the validation result, and the file system after
the accept / rollback decision. -/
structure ValStep where
  patch : Patch
  fs_before : FS
  result : ValidationResult
  fs_after : FS

/-- The patch loop of `ValidationAgent.run` (lines 54–67): apply
`patched_code`, re-run the tests, and on rejection restore `original_code`.
Returns the full processing trace. -/
def validateLoop (runTests : FS → TestRun) (prevExit : Int) (baseline : Nat) :
    List Patch → FS → List ValStep
  | [], _ => []
  | p :: ps, fs =>
    let fs1 := applyCode fs p.file_path p.patched_code
    let run1 := runTests fs1
    let result := validatePatchResult prevExit baseline run1 p.patch_id
    let fs2 := if result.passed then fs1 else applyCode fs1 p.file_path p.original_code
    { patch := p, fs_before := fs, result := result, fs_after := fs2 } ::
      validateLoop runTests prevExit baseline ps fs2

/-- `ValidationAgent._build_fix_records` (lines 188–212).  The Python dict
comprehension `{f.failure_id: f for f in failures}` keeps the LAST failure
for a duplicated id. -/
def buildFixRecords (failures : List Failure) (accepted : List Patch) : List Fix :=
  accepted.filterMap fun patch =>
    match (failures.filter (fun f => f.failure_id = patch.failure_id)).getLast? with
    | none => none
    | some failure => some
      { fix_id := patch.patch_id ++ "-fix"
        failure_id := patch.failure_id
        patch_id := patch.patch_id
        failure_type := failure.failure_type
        file_path := patch.file_path
        line_number := failure.line_number
        description := patch.reasoning
        patch_type := patch.patch_type
        diff := patch.diff
        original_code := patch.original_code
        patched_code := patch.patched_code
        validated := true }

/-! ## Patch generator loop (`backend/agents/patch_generator_agent.py`,
`PatchGeneratorAgent.run`, lines 100–132)

The per-failure patch synthesis (LLM call in `_generate_patch` or rule engine
in `_fallback_patch`) is abstracted into a draft maker
`mk : failure → target_file → original_code → Option PatchDraft`; both source
paths read `original_code` from the target file and set
`file_path := target_file`, `original_code := <file content>` on the emitted
`Patch`, which `generatePatches` does uniformly. -/

structure PatchDraft where
  patch_id : String
  patch_type : PatchType
  patched_code : String
  diff : List String
  line_start : Nat := 0
  line_end : Nat := 0
  reasoning : String

/-- `failure.root_cause_file or failure.file_path`: Python `or` also rejects
the empty string. -/
def targetFile (f : Failure) : String :=
  match f.root_cause_file with
  | some rc => if rc = "" then f.file_path else rc
  | none => f.file_path

/-- The generator loop: at most one patch per target file per iteration
(`processed_files`), skipping `"unknown"` targets and unreadable files. -/
def generatePatches (mk : Failure → String → String → Option PatchDraft)
    (fs : FS) : List Failure → List String → List Patch
  | [], _ => []
  | f :: rest, processed =>
    let target := targetFile f
    if target ∈ processed ∨ target = "unknown" then
      generatePatches mk fs rest processed
    else
      match fs target with
      | none => generatePatches mk fs rest processed
      | some orig =>
        match mk f target orig with
        | none => generatePatches mk fs rest processed
        | some d =>
          { patch_id := d.patch_id
            failure_id := f.failure_id
            patch_type := d.patch_type
            file_path := target
            original_code := orig
            patched_code := d.patched_code
            diff := d.diff
            line_start := d.line_start
            line_end := d.line_end
            reasoning := d.reasoning } ::
            generatePatches mk fs rest (target :: processed)

/-! ## Convergence gate (`backend/orchestrator/graph.py`, `should_continue`,
lines 64–117) -/

inductive Decision
  | retry | score
  deriving DecidableEq, Repr

/-- `should_continue`: the conditional edge after `commit_optimizer`.  The
Python function mutates the state before returning `"retry"`; we return the
decision together with the (possibly updated) state.  `0.75` is exact in
binary floating point, so the temperature update is exact over `Rat`. -/
def shouldContinue (s : AgentState) : Decision × AgentState :=
  if s.fatal_error.isSome then (.score, s)
  else if remainingFailures s.failures s.fixes = 0 then (.score, s)
  else if s.pytest_exit_code = 5 ∧ 0 < s.fixes.length then (.score, s)
  else if s.patches.isEmpty ∧ 0 < s.iteration then (.score, s)
  else if s.max_retries ≤ s.iteration then (.score, s)
  else (.retry,
    { s with iteration := s.iteration + 1
             current_temperature :=
               max s.temperature_min (s.current_temperature * (3/4)) })

/-- The retry loop of the healing graph (`build_healing_graph`): run the
pipeline stages (`test_runner` … `commit_optimizer`, abstracted as
`stages`), then either proceed to scoring or loop back.  Fuel counts the
pipeline iterations; exhausted fuel returns `none`. -/
def runLoop (stages : AgentState → AgentState) : Nat → AgentState → Option AgentState
  | 0, _ => none
  | fuel + 1, s =>
    let s' := stages s
    match shouldContinue s' with
    | (.score, s'') => some s''
    | (.retry, s'') => runLoop stages fuel s''

/-! ## Python string primitives

Faithful models of the Python standard-library string operations the agents
call.  Newlines are `"\n"` (the only line terminator the repository's inputs
use). -/

/-- A single quote character, `"'"`. -/
def sq : String := String.mk [Char.ofNat 39]

/-- Splitter on a nonempty separator, fuelled by the subject length (one unit
per consumed character, so the fuel never runs out); the accumulator holds
the current segment reversed. -/
def splitOnGo (sep : List Char) : Nat → List Char → List Char → List (List Char)
  | _, acc, [] => [acc.reverse]
  | 0, acc, rest => [acc.reverse ++ rest]
  | fuel + 1, acc, c :: cs =>
    if sep.isPrefixOf (c :: cs) then
      acc.reverse :: splitOnGo sep fuel [] ((c :: cs).drop sep.length)
    else splitOnGo sep fuel (c :: acc) cs

/-- Python `s.split(sep)` / Lean `String.splitOn` for a nonempty `sep`. -/
def pySplitOn (s sep : String) : List String :=
  (splitOnGo sep.data (s.data.length + 1) [] s.data).map String.mk

def pyStartsWith (s pre : String) : Bool := pre.data.isPrefixOf s.data

def pyEndsWith (s suf : String) : Bool := suf.data.reverse.isPrefixOf s.data.reverse

/-- Python `s[:n]` on strings. -/
def pyTake (s : String) (n : Nat) : String := String.mk (s.data.take n)

def containsGo (needle : List Char) : List Char → Bool
  | [] => needle.isEmpty
  | c :: cs => needle.isPrefixOf (c :: cs) || containsGo needle cs

/-- Python `needle in hay` (substring test, nonempty needle). -/
def pyContains (hay needle : String) : Bool := containsGo needle.data hay.data

/-- ASCII lower-casing (Python `str.lower` on the inputs at hand). -/
def pyToLower (s : String) : String :=
  String.mk (s.data.map (fun c =>
    if 65 ≤ c.val.toNat ∧ c.val.toNat ≤ 90 then Char.ofNat (c.val.toNat + 32) else c))

/-- Python `s.replace(pat, rep)` (every occurrence, nonempty `pat`). -/
def pyReplace (s pat rep : String) : String :=
  String.intercalate rep (pySplitOn s pat)

/-- Python `str.splitlines()` for `"\n"`-terminated text. -/
def pySplitLines (s : String) : List String :=
  if s = "" then []
  else
    let parts := pySplitOn s "\n"
    if pyEndsWith s "\n" then parts.dropLast else parts

/-- Python `str.splitlines(keepends=True)` for `"\n"`-terminated text. -/
def pySplitLinesKeep (s : String) : List String :=
  if s = "" then []
  else
    let parts := pySplitOn s "\n"
    if pyEndsWith s "\n" then parts.dropLast.map (fun l => l ++ "\n")
    else parts.dropLast.map (fun l => l ++ "\n") ++ [parts.getLastD ""]

/-- Python `str.rstrip()`. -/
def pyRstrip (s : String) : String :=
  String.mk (s.data.reverse.dropWhile Char.isWhitespace).reverse

/-- Python `str.lstrip()`. -/
def pyLstrip (s : String) : String :=
  String.mk (s.data.dropWhile Char.isWhitespace)

/-- Python `str.strip()`. -/
def pyStrip (s : String) : String := pyLstrip (pyRstrip s)

/-- Python `os.path.basename` / `pathlib.Path(...).name`. -/
def pyBasename (p : String) : String := (pySplitOn p "/").getLastD p

/-- Python `x or 1` on an optional line number (0 and None are falsy). -/
def pyOr1 (o : Option Nat) : Nat :=
  match o with
  | some n => if n = 0 then 1 else n
  | none => 1

/-- Python `x or 0` on an optional line number. -/
def pyOr0 (o : Option Nat) : Nat :=
  match o with
  | some n => n
  | none => 0

/-- The text after the first occurrence of `pat`, if any. -/
def afterFirst (msg pat : String) : Option String :=
  match pySplitOn msg pat with
  | [] => none
  | [_] => none
  | _ :: rest => some (String.intercalate pat rest)

/-- A regex `\w` character (ASCII). -/
def isWordChar (c : Char) : Bool := c.isAlphanum || c = '_'

/-! ## Unified diff (`PatchGeneratorAgent._compute_diff`, lines 504–514)

`difflib.unified_diff` is modelled as an LCS-based unified diff: header
lines, one whole-file hunk header, and `"-"`/`"+"`/`" "` body lines.
`difflib` uses matching blocks (a common subsequence, not necessarily
maximal), so it can only emit MORE changed lines than this model; on the
inputs evaluated here (no common line at all) the two agree exactly. -/

def maxByLen (a b : List String) : List String := if a.length < b.length then b else a

/-- One row of the longest-common-subsequence table: given the row for the
tail of the first sequence (over all suffixes of `ys`), compute the row for
`x :: tail`. -/
def lcsRow (x : String) : List String → List (List String) → List (List String)
  | [], _ => [[]]
  | y :: ys, prev =>
    let tailRow := lcsRow x ys prev.tail
    let cell := if x = y then x :: (prev.tail.headD [])
                else maxByLen (prev.headD []) (tailRow.headD [])
    cell :: tailRow

def lcsTable : List String → List String → List (List String)
  | [], ys => List.replicate (ys.length + 1) []
  | x :: xs, ys => lcsRow x ys (lcsTable xs ys)

/-- A longest common subsequence of two line lists. -/
def lcs (xs ys : List String) : List String := (lcsTable xs ys).headD []

/-- Emit diff body lines given a common subsequence spine. -/
def emitDiff : List String → List String → List String → List String
  | [], xs, ys => xs.map (fun l => "-" ++ l) ++ ys.map (fun l => "+" ++ l)
  | c :: cs, xs, ys =>
    let dels := xs.takeWhile (fun l => l ≠ c)
    let xs' := (xs.dropWhile (fun l => l ≠ c)).drop 1
    let ins := ys.takeWhile (fun l => l ≠ c)
    let ys' := (ys.dropWhile (fun l => l ≠ c)).drop 1
    dels.map (fun l => "-" ++ l) ++ ins.map (fun l => "+" ++ l)
      ++ (" " ++ c) :: emitDiff cs xs' ys'

/-- The unified diff of two file contents, as its list of lines. -/
def computeDiff (original patched : String) (file_path : String) : List String :=
  let o := pySplitLines original
  let p := pySplitLines patched
  if o == p then []
  else ("--- a/" ++ pyBasename file_path) :: ("+++ b/" ++ pyBasename file_path)
    :: ("@@ -1," ++ toString o.length ++ " +1," ++ toString p.length ++ " @@")
    :: emitDiff (lcs o p) o p

/-- The diff-size gate of `PatchGeneratorAgent._generate_patch` (line 220):
lines starting with `+`/`-` but not `+++`/`---`. -/
def diffChangedLines (diff : List String) : Nat :=
  (diff.filter (fun l => (pyStartsWith l "+" || pyStartsWith l "-")
    && !(pyStartsWith l "+++") && !(pyStartsWith l "---"))).length

/-! ## Deterministic rule engine
(`PatchGeneratorAgent._fallback_patch` and the `_fix_*_rules` helpers,
`patch_generator_agent.py` lines 269–502)

Regular-expression searches are modelled by explicit left-to-right scanners
with the same match semantics (leftmost match, greedy `\w+`, minimal
`(.+?)\)` whose first captured character is unconditional). -/

/-- The alternation of
`^\s*(def |class |if |for |while |with |elif |else|try|except|finally)` in
`_fix_syntax_rules`. -/
def colonKeywords : List String :=
  ["def ", "class ", "if ", "for ", "while ", "with ", "elif ",
   "else", "try", "except", "finally"]

/-- `re.match(r'^\s*(def |class |...|finally).*[^:]$', stripped)`: after
leading whitespace one keyword alternative matches and at least one more
character follows, the last of which is not a colon. -/
def colonRuleMatches (stripped : String) : Bool :=
  let t := stripped.data.dropWhile Char.isWhitespace
  colonKeywords.any (fun kw =>
    kw.data.isPrefixOf t &&
      (let rest := t.drop kw.data.length
       !rest.isEmpty && (rest.getLastD ' ') != ':'))

def natDist (a b : Nat) : Nat := max a b - min a b

/-- `len(line) - len(line.lstrip())`. -/
def indentOf (l : String) : Nat := l.length - (pyLstrip l).length

/-- The line loop of `_fix_syntax_rules` (lines 371–391): `i` is the current
index, `prevFixed` the already-fixed previous line (`fixed_lines[i-1]`).
Returns the fixed lines and the change messages. -/
def fixSyntaxGo (ftype : FailureType) (lineIdx : Nat) :
    Nat → Option String → List String → List String × List String
  | _, _, [] => ([], [])
  | i, prevFixed, line :: rest =>
    let stripped := pyRstrip line
    if colonRuleMatches stripped && !pyEndsWith stripped ":" then
      let fixedLine := stripped ++ ":"
      let (ls, cs) := fixSyntaxGo ftype lineIdx (i + 1) (some fixedLine) rest
      (fixedLine :: ls, ("Line " ++ toString (i + 1) ++ ": added missing colon") :: cs)
    else if natDist i lineIdx ≤ 3 ∧ ftype = FailureType.INDENTATION ∧ 0 < i then
      match prevFixed with
      | some prev =>
        let prev_indent := indentOf prev
        let cur_indent := indentOf line
        if prev_indent + 4 < cur_indent then
          let fixedLine := String.mk (List.replicate (prev_indent + 4) ' ') ++ pyLstrip line
          let (ls, cs) := fixSyntaxGo ftype lineIdx (i + 1) (some fixedLine) rest
          (fixedLine :: ls,
            ("Line " ++ toString (i + 1) ++ ": corrected indentation") :: cs)
        else
          let (ls, cs) := fixSyntaxGo ftype lineIdx (i + 1) (some line) rest
          (line :: ls, cs)
      | none =>
        let (ls, cs) := fixSyntaxGo ftype lineIdx (i + 1) (some line) rest
        (line :: ls, cs)
    else
      let (ls, cs) := fixSyntaxGo ftype lineIdx (i + 1) (some line) rest
      (line :: ls, cs)

/-- `_fix_syntax_rules` (lines 363–398). -/
def fixSyntaxRules (code : String) (failure : Failure) : String × String :=
  let lines := pySplitLines code
  let (fixedLines, changes) :=
    fixSyntaxGo failure.failure_type (pyOr1 failure.line_number - 1) 0 none lines
  let joined := String.intercalate "\n" fixedLines
  let patched := if pyEndsWith joined "\n" then joined else joined ++ "\n"
  (patched,
   if changes.isEmpty then "Applied syntax rules" else String.intercalate "; " changes)

/-- The capture of `r"No module named '([^']+)'"`-style patterns: text after
the first occurrence of `pre`, up to the next quote, nonempty. -/
def extractQuoted (msg pre : String) : Option String :=
  match afterFirst msg pre with
  | none => none
  | some after =>
    match pySplitOn after sq with
    | [] => none
    | [_] => none
    | capt :: _ => if capt = "" then none else some capt

/-- First line index at which to insert an import: first line whose strip is
nonempty and starts with neither `#`, `"""` nor three single quotes; 0 if no
line qualifies (`_fix_import_rules`, lines 417–421). -/
def findInsertIdx (lines : List String) : Nat :=
  match lines.findIdx? (fun ln =>
    let t := pyStrip ln
    !(t == "") && !pyStartsWith t "#" && !pyStartsWith t "\"\"\""
      && !pyStartsWith t (sq ++ sq ++ sq)) with
  | some i => i
  | none => 0

/-- `_fix_import_rules` (lines 400–423). -/
def fixImportRules (code : String) (failure : Failure) : String × String :=
  let captured :=
    match extractQuoted failure.message ("No module named " ++ sq) with
    | some g => some g
    | none => extractQuoted failure.message ("cannot import name " ++ sq)
  match captured with
  | none => (code, "No import pattern matched")
  | some g =>
    let mod := (pySplitOn g ".").headD g
    let import_line := "import " ++ mod ++ "\n"
    if pyContains code (pyStrip import_line) then (code, mod ++ " already imported")
    else
      let lines := pySplitLinesKeep code
      let insert_at := findInsertIdx lines
      (String.join (lines.take insert_at ++ [import_line] ++ lines.drop insert_at),
       "Inserted " ++ sq ++ "import " ++ mod ++ sq ++ " at line "
         ++ toString (insert_at + 1))

/-- One attempt of `re.sub(r'return str\((.+?)\)', ...)` at the head of the
character list: on success returns the capture and the remainder after the
closing parenthesis. -/
def matchReturnStr (l : List Char) : Option (List Char × List Char) :=
  if "return str(".data.isPrefixOf l then
    match l.drop 11 with
    | [] => none
    | a :: rs =>
      match rs.findIdx? (fun ch => ch = ')') with
      | none => none
      | some k =>
        let capt := a :: rs.take k
        if capt.contains '\n' then none else some (capt, rs.drop (k + 1))
  else none

theorem matchReturnStr_some_lt {l : List Char} {capt rem : List Char}
    (h : matchReturnStr l = some (capt, rem)) : rem.length < l.length := by
  unfold matchReturnStr at h
  split at h
  · split at h
    · simp at h
    · rename_i a rs hd
      split at h
      · simp at h
      · rename_i k hk
        dsimp only at h
        split at h
        · simp at h
        · have hL : l.length - 11 = rs.length + 1 := by
            have := congrArg List.length hd
            simpa using this
          have hrem : rem = rs.drop (k + 1) := by
            have hp := Option.some.inj h
            exact (congrArg Prod.snd hp).symm
          rw [hrem, List.length_drop]
          omega
  · simp at h

/-- Left-to-right non-overlapping substitution
`re.sub(r'return str\((.+?)\)', r'return \1', code)` (`_fix_type_rules`). -/
def typeSubGo : List Char → List Char
  | [] => []
  | c :: cs =>
    match h : matchReturnStr (c :: cs) with
    | some (capt, rem) => "return ".data ++ capt ++ typeSubGo rem
    | none => c :: typeSubGo cs
termination_by l => l.length
decreasing_by
  · exact matchReturnStr_some_lt h
  · simp only [List.length_cons]; omega

/-- `_fix_type_rules` (lines 425–433). -/
def fixTypeRules (code : String) (_failure : Failure) : String × String :=
  let patched := String.mk (typeSubGo code.data)
  if patched ≠ code then (patched, "Removed str() wrapper from numeric return value")
  else (code, "No type fix rule matched")

/-- Scanner for `re.search(r"name '(\w+)' is not defined", msg)`: leftmost
occurrence of `name '` followed by a nonempty word run and the closing
`' is not defined`. -/
def findNameGo : List Char → Option (List Char)
  | [] => none
  | c :: cs =>
    if ("name " ++ sq).data.isPrefixOf (c :: cs) then
      let after := (c :: cs).drop 6
      let word := after.takeWhile isWordChar
      if !word.isEmpty && (sq ++ " is not defined").data.isPrefixOf (after.drop word.length) then
        some word
      else findNameGo cs
    else findNameGo cs

/-- Word-boundary substitution step for `re.sub(rf"\b{missing_var}\b", ...)`:
the pattern `v :: vs` is replaced by `rep` wherever it is preceded and
followed by a non-word character (or the line boundary). -/
def wbGo (v : Char) (vs rep : List Char) : Option Char → List Char → List Char
  | _, [] => []
  | prev, c :: cs =>
    if (v :: vs).isPrefixOf (c :: cs)
        && (match prev with | some pc => !isWordChar pc | none => true)
        && (match (c :: cs).drop (vs.length + 1) with
            | d :: _ => !isWordChar d
            | [] => true) then
      rep ++ wbGo v vs rep (some ((v :: vs).getLastD v)) ((c :: cs).drop (vs.length + 1))
    else c :: wbGo v vs rep (some c) cs
termination_by _ l => l.length
decreasing_by
  · simp only [List.length_drop, List.length_cons]; omega
  · simp only [List.length_cons]; omega

/-- `re.sub(rf"\b{var}\b", rep, line)`. -/
def wbSub (var rep line : String) : String :=
  match var.data with
  | [] => line
  | v :: vs => String.mk (wbGo v vs rep.data none line.data)

/-- Scanner for `re.search(r"def \w+\s*\((.+?)\)", line)`: returns the
captured parameter text. -/
def matchDefParams : List Char → Option String
  | [] => none
  | c :: cs =>
    let attempt : Option String :=
      if "def ".data.isPrefixOf (c :: cs) then
        let after := (c :: cs).drop 4
        let name := after.takeWhile isWordChar
        if name.isEmpty then none
        else
          match (after.drop name.length).dropWhile Char.isWhitespace with
          | '(' :: rest =>
            match rest with
            | [] => none
            | a :: rs =>
              match rs.findIdx? (fun ch => ch = ')') with
              | none => none
              | some k =>
                let capt := a :: rs.take k
                if capt.contains '\n' then none else some (String.mk capt)
          | _ => none
      else none
    match attempt with
    | some r => some r
    | none => matchDefParams cs

/-- Parameter extraction + the `num`↔`n` neighbour check of
`_fix_runtime_rules` (lines 466–477). -/
def defLineParam (var : String) (line : String) : Option String :=
  match matchDefParams line.data with
  | none => none
  | some params_str =>
    let params := (pySplitOn params_str ",").map (fun p => pyStrip ((pySplitOn p ":").headD ""))
    if var = "num" && params.contains "n" then some "n"
    else if var = "n" && params.contains "num" then some "num"
    else none

/-- Backward scan from the error line for the enclosing `def` line
(`for i in range(err_line_idx, -1, -1)`), stopping at the first one. -/
def scanBack (lines : List String) (var : String) : Nat → Option String
  | 0 =>
    let ln := lines.getD 0 ""
    if pyStartsWith (pyStrip ln) "def " then defLineParam var ln else none
  | i + 1 =>
    let ln := lines.getD (i + 1) ""
    if pyStartsWith (pyStrip ln) "def " then defLineParam var ln
    else scanBack lines var i

def stdLibs : List String := ["math", "json", "os", "sys", "re", "random", "datetime", "time"]

/-- `_fix_runtime_rules` (lines 435–484). -/
def fixRuntimeRules (code : String) (failure : Failure) : String × String :=
  match findNameGo failure.message.data with
  | none => (code, "No runtime fix rule matched")
  | some wordChars =>
    let var := String.mk wordChars
    if stdLibs.contains var then
      fixImportRules code
        { failure_id := "", failure_type := .IMPORT, severity := failure.severity,
          file_path := failure.file_path,
          message := "No module named " ++ sq ++ var ++ sq }
    else
      let lines := pySplitLines code
      let err_idx := pyOr1 failure.line_number - 1
      match scanBack lines var err_idx with
      | some param =>
        (String.intercalate "\n"
          (lines.set err_idx (wbSub var param (lines.getD err_idx ""))),
         "Replaced undefined " ++ sq ++ var ++ sq ++ " with parameter "
           ++ sq ++ param ++ sq)
      | none => (code, "No runtime fix rule matched")

/-- The `@lru_cache` decorator-dropping loop of the LOGIC branch
(`_fallback_patch`, lines 319–334): a decorator line whose successor mentions
`self` is removed. -/
def lruGo : Nat → List String → List String × List String
  | _, [] => ([], [])
  | i, l :: rest =>
    let (ks, cs) := lruGo (i + 1) rest
    if pyContains l "@lru_cache"
        && (match rest with | next :: _ => pyContains next "self" | [] => false) then
      (ks, ("Removed @lru_cache from instance method (line " ++ toString (i + 1) ++ ")") :: cs)
    else (l :: ks, cs)

def lruFix (patched : String) : String × List String :=
  if pyContains patched "@lru_cache" && pyContains patched "self" then
    let (kept, changes) := lruGo 0 (pySplitLines patched)
    let joined := String.intercalate "\n" kept
    (if pyEndsWith joined "\n" then joined else joined ++ "\n", changes)
  else (patched, [])

/-- The per-failure-type rule dispatch of `_fallback_patch` (lines 281–337):
returns patched code, patch type and reasoning. -/
def fallbackRules (original_code : String) (failure : Failure) :
    String × PatchType × String :=
  match failure.failure_type with
  | .SYNTAX | .INDENTATION =>
    let (p, r) := fixSyntaxRules original_code failure
    (p, .SYNTAX_CORRECTION, r)
  | .IMPORT =>
    let (p, r) := fixImportRules original_code failure
    (p, .IMPORT_REPAIR, r)
  | .TYPE_ERROR | .TEST_FAILURE =>
    let (p, r) := fixTypeRules original_code failure
    (p, .TYPE_FIX, r)
  | .RUNTIME =>
    let (p, r) := fixRuntimeRules original_code failure
    (p, .LOGIC_CORRECTION, r)
  | .LOGIC | .LINTING | .UNKNOWN =>
    let (r1, m1) := fixSyntaxRules original_code failure
    let (p1, changes1) :=
      if r1 ≠ original_code then (r1, [m1]) else (original_code, [])
    let (r2, m2) := fixTypeRules p1 failure
    let (p2, changes2) := if r2 ≠ p1 then (r2, changes1 ++ [m2]) else (p1, changes1)
    let (r3, m3) := fixRuntimeRules p2 failure
    let (p3, changes3) := if r3 ≠ p2 then (r3, changes2 ++ [m3]) else (p2, changes2)
    let (p4, lruChanges) := lruFix p3
    let changes4 := changes3 ++ lruChanges
    (p4, .LOGIC_CORRECTION,
     if changes4.isEmpty then "Applied all available rules"
     else String.intercalate "; " changes4)
  | .DEPENDENCY => (original_code, .SYNTAX_CORRECTION, "Rule-based fallback fix")

/-- `PatchGeneratorAgent._validate_syntax` (lines 486–502): non-Python files
pass; Python files must parse (`ast.parse` is the oracle `pyParse`). -/
def validateSyntax (pyParse : String → Bool) (code : String) (file_path : String) : Bool :=
  if !pyEndsWith file_path ".py" then true else pyParse code

/-- `_fallback_patch` (lines 269–361): read the file, apply the rule
dispatch, drop the patch if nothing changed or the syntax gate fails,
otherwise emit a `Patch` (uuids are modelled as `""`).  Note that — unlike
`_generate_patch` — no diff-size gate is applied on this path. -/
def fallbackPatch (pyParse : String → Bool) (fs : FS) (failure : Failure)
    (target : String) : Option Patch :=
  match fs target with
  | none => none
  | some original_code =>
    let res := fallbackRules original_code failure
    if res.1 = original_code then none
    else if !validateSyntax pyParse res.1 target then none
    else some
      { patch_id := ""
        failure_id := failure.failure_id
        patch_type := res.2.1
        file_path := target
        original_code := original_code
        patched_code := res.1
        diff := computeDiff original_code res.1 target
        line_start := pyOr0 failure.line_number
        line_end := pyOr0 failure.line_number + 5
        reasoning := "[RULE-BASED] " ++ res.2.2
        deterministic := true }

/-! ## String ordering (Python compares strings by code points) -/

def strLtGo : List Char → List Char → Bool
  | [], [] => false
  | [], _ :: _ => true
  | _ :: _, [] => false
  | a :: as, b :: bs =>
    if a.val.toNat < b.val.toNat then true
    else if b.val.toNat < a.val.toNat then false
    else strLtGo as bs

def strLeGo : List Char → List Char → Bool
  | [], _ => true
  | _ :: _, [] => false
  | a :: as, b :: bs =>
    if a.val.toNat < b.val.toNat then true
    else if b.val.toNat < a.val.toNat then false
    else strLeGo as bs

/-- Python `a < b` on strings. -/
def pyStrLt (a b : String) : Bool := strLtGo a.data b.data

/-- Python `a <= b` on strings. -/
def pyStrLe (a b : String) : Bool := strLeGo a.data b.data

/-! ## Stable sort (Python `list.sort` / `sorted` are stable) -/

/-- Insert `x` after all accumulated elements whose key is `≤` its key. -/
def insertStable {α : Type} (le : α → α → Bool) (x : α) : List α → List α
  | [] => [x]
  | y :: ys => if le y x then y :: insertStable le x ys else x :: y :: ys

/-- A stable sort by a boolean total preorder, modelling Python sorting. -/
def pySort {α : Type} (le : α → α → Bool) (l : List α) : List α :=
  l.foldl (fun acc x => insertStable le x acc) []

/-- Keep-first deduplication of strings (Python dict-key insertion order). -/
def dedupStrings (seen : List String) : List String → List String
  | [] => []
  | s :: rest =>
    if seen.contains s then dedupStrings seen rest
    else s :: dedupStrings (s :: seen) rest

/-! ## Failure Classifier (`backend/agents/failure_classifier_agent.py`,
`FailureClassifierAgent.run`, lines 164–217)

External machinery — `ast.parse` via `ASTParser`, the regex trace
classification, and the LLM proactive scan — is abstracted into oracle
functions; the run structure (which sub-classifiers fire, the gates, the
deduplication, the severity sort, and crucially the final wholesale
assignment `state.failures = failures`) is embedded from the source. -/

structure AstErr where
  node_type : String
  message : String
  line : Option Nat
  col : Option Nat

structure AstIssue where
  line : Option Nat
  col : Option Nat
  message : String

structure ClassifierOracles where
  astParse : String → Option AstErr
  findUndefinedNames : String → List AstIssue
  fromImports : String → List (String × String)
  classifyPytest : List String → String → JsonReport → List Failure
  classifyText : String → LanguageMode → List Failure
  proactiveScan : List String → List Failure

/-- `_classify_ast_failures` (lines 354–397): per Python file, a CRITICAL
SYNTAX/INDENTATION failure on parse error, HIGH LOGIC failures for undefined
names, HIGH IMPORT failures for suspicious relative imports.  uuid ids are
modelled as `""`. -/
def classifyAstFailures (o : ClassifierOracles) (python_files : List String) :
    List Failure :=
  python_files.flatMap (fun fp =>
    (match o.astParse fp with
     | some err =>
       let ftype := if pyContains err.node_type "IndentationError"
           || pyContains (pyToLower err.message) "indent" then
         FailureType.INDENTATION else FailureType.SYNTAX
       [{ failure_id := "", failure_type := ftype, severity := .CRITICAL,
          file_path := fp, line_number := err.line, column := err.col,
          message := err.message,
          raw_trace := some ("AST parse failed: " ++ err.node_type) }]
     | none => [])
    ++ (o.findUndefinedNames fp).map (fun issue =>
        { failure_id := "", failure_type := .LOGIC, severity := .HIGH,
          file_path := fp, line_number := issue.line, column := issue.col,
          message := issue.message,
          raw_trace := some ("Static analysis: " ++ issue.message) })
    ++ (o.fromImports fp).filterMap (fun mi =>
        if mi.1 = "" ∧ mi.2 ≠ "__future__" then
          some { failure_id := "", failure_type := .IMPORT, severity := .HIGH,
                 file_path := fp, line_number := some 0,
                 message := "Suspicious from import: from " ++ mi.1
                   ++ " import " ++ mi.2 }
        else none))

def dedupKey (f : Failure) : FailureType × String × Option Nat × String :=
  (f.failure_type, f.file_path, f.line_number, pyTake f.message 80)

/-- `_deduplicate` (lines 503–511): keep the first failure per
`(type, file, line, message[:80])` key. -/
def dedupFailuresGo (seen : List (FailureType × String × Option Nat × String)) :
    List Failure → List Failure
  | [] => []
  | f :: rest =>
    if seen.contains (dedupKey f) then dedupFailuresGo seen rest
    else f :: dedupFailuresGo (dedupKey f :: seen) rest

def severityRank : Severity → Nat
  | .CRITICAL => 0
  | .HIGH => 1
  | .MEDIUM => 2
  | .LOW => 3

/-- The failure list `FailureClassifierAgent.run` computes — note it is built
from the test output and the source files only, never from the previous
`state.failures`. -/
def classifierFailures (o : ClassifierOracles) (s : AgentState) : List Failure :=
  let base :=
    if s.repo_language = .PYTHON then
      classifyAstFailures o s.python_files
        ++ (match s.pytest_json_report with
            | some rep =>
              let stack_traces :=
                (rep.tests.filter (fun t => t.outcome = "failed" ∨ t.outcome = "error")).map
                  (fun t => t.longrepr)
              o.classifyPytest stack_traces s.pytest_output rep
            | none => [])
    else o.classifyText s.pytest_output s.repo_language
  let withScan :=
    if base.length < 3 ∧ ¬ s.source_files.isEmpty then
      base ++ o.proactiveScan (s.source_files.filter (fun f => !s.test_files.contains f))
    else base
  pySort (fun a b => severityRank a.severity ≤ severityRank b.severity)
    (dedupFailuresGo [] withScan)

/-- `FailureClassifierAgent.run`: the classified list REPLACES
`state.failures` (line 205). -/
def classifierRun (o : ClassifierOracles) (s : AgentState) : AgentState :=
  let failures := classifierFailures o s
  let ev : CITimelineEvent :=
    { iteration := s.iteration
      event_type := "CLASSIFICATION"
      description := "Classified " ++ toString failures.length ++ " failures"
      failures_before := failures.length }
  { s with failures := failures, timeline := s.timeline ++ [ev] }

/-! ## Commit Optimizer (`backend/agents/commit_optimizer_agent.py`,
`CommitOptimizerAgent._group_and_commit`, lines 111–165)

Git effects are modelled as values: a `Commit` holds the message and staged
files; `gitSha` is the oracle mapping a commit to its hash.  File existence
is the oracle `fexists`. -/

structure Commit where
  message : String
  files : List String
  sha : String
  deriving DecidableEq, Repr

/-- `sorted(fixes, key=lambda f: (f.failure_type, f.file_path))` — enum
values compare as their canonical strings at runtime. -/
def fixSortKeyLe (a b : Fix) : Bool :=
  pyStrLt a.failure_type.str b.failure_type.str
    || (a.failure_type.str == b.failure_type.str && pyStrLe a.file_path b.file_path)

/-- `_group_and_commit`: sort fixes, group by failure type, iterate groups in
sorted key order, stage at most the first 10 fixes of each group (those whose
file exists), skip empty groups, commit with the `[AI-AGENT]`-tagged
message. -/
def groupAndCommit (fexists : String → Bool) (gitSha : String → String)
    (run_id : String) (iteration : Nat) (fixes : List Fix) : List Commit :=
  let sorted_fixes := pySort fixSortKeyLe fixes
  let keys := pySort pyStrLe
    (dedupStrings [] (sorted_fixes.map (fun f => f.failure_type.str)))
  keys.filterMap (fun key =>
    let group := sorted_fixes.filter (fun f => f.failure_type.str = key)
    let staged := (group.take 10).filter (fun f => fexists f.file_path)
    let files_changed := staged.map (fun f => pyBasename f.file_path)
    if files_changed.isEmpty then none
    else
      let msg := settings.GITHUB_COMMIT_TAG ++ " Fix " ++ key ++ " failures\n\nFiles: "
        ++ String.intercalate ", " files_changed
        ++ "\nRun ID: " ++ run_id
        ++ "\nIteration: " ++ toString iteration
        ++ "\nAuto-generated by CI/CD Healing Agent — no manual edits"
      some { message := msg, files := staged.map (fun f => f.file_path),
             sha := pyTake (gitSha msg) 8 })

/-! ## Root-Cause Resolver (`backend/agents/root_cause_agent.py`,
`RootCauseAgent.run`, lines 54–122)

The LLM completion (plus its JSON parse) is the oracle
`llm : Failure → Except String RootCauseJson` (`.error` carries the exception
text).  The thread pool submits EVERY grouped analysis before any result is
read, so the set of LLM calls is fixed up front; results are then folded back
sequentially, and the static pass runs over all failures afterwards. -/

structure RootCauseJson where
  root_cause_file : Option String
  root_cause_line : Option Nat
  explanation : String

/-- The rate-limit test of `_analyze_with_llm` (line 171). -/
def isRateLimitErr (e : String) : Bool :=
  pyContains e "429" || pyContains (pyToLower e) "quota" || pyContains (pyToLower e) "rate"

/-- `_build_context` returns `None` exactly when the resolved file path is
falsy or `"unknown"` (lines 211–214). -/
def hasContext (f : Failure) : Bool :=
  !(targetFile f = "" || targetFile f = "unknown")

def pyDirname (p : String) : String :=
  String.intercalate "/" (pySplitOn p "/").dropLast

/-- `_analyze_static` (lines 178–209): the `test_foo.py → foo.py` naming
heuristic, falling back to the failure location itself. -/
def analyzeStatic (fexists : String → Bool) (repo_path : String) (f : Failure) :
    Failure :=
  let resolved :=
    if f.file_path ≠ "" ∧ f.file_path ≠ "unknown" then
      let stem := (pySplitOn (pyBasename f.file_path) ".").headD ""
      if pyContains stem "test" then
        let clean := pyReplace (pyReplace (pyReplace stem "test_" "") "_test" "") ".test" ""
        let parent := pyDirname f.file_path
        let candidates :=
          [parent ++ "/" ++ clean ++ ".py", parent ++ "/" ++ clean ++ ".js",
           parent ++ "/" ++ clean ++ ".ts", parent ++ "/" ++ clean ++ ".java",
           repo_path ++ "/src/" ++ clean ++ ".py", repo_path ++ "/src/" ++ clean ++ ".js",
           repo_path ++ "/src/" ++ clean ++ ".ts", repo_path ++ "/src/" ++ clean ++ ".java"]
        match candidates.find? (fun c => fexists c && c ≠ f.file_path) with
        | some c => c
        | none => f.file_path
      else f.file_path
    else f.file_path
  { f with root_cause_file := some resolved, root_cause_line := f.line_number }

/-- `_analyze_with_llm` (lines 126–175): returns the updated failure and the
ok flag (`false` signals a rate-limited call). -/
def analyzeWithLlm (llm : Failure → Except String RootCauseJson)
    (fexists : String → Bool) (repo : String) (f : Failure) : Failure × Bool :=
  if !hasContext f then (analyzeStatic fexists repo f, true)
  else
    match llm f with
    | .ok rc =>
      ({ f with root_cause_file := some (rc.root_cause_file.getD f.file_path)
                root_cause_line :=
                  match rc.root_cause_line with
                  | some l => some l
                  | none => f.line_number
                message := f.message ++ " | ROOT: " ++ pyTake rc.explanation 150 }, true)
    | .error e => (analyzeStatic fexists repo f, !isRateLimitErr e)

/-- The per-file grouping `file_to_failure` (first failure per file path). -/
def dedupByFileGo (seen : List String) : List Failure → List Failure
  | [] => []
  | f :: rest =>
    if seen.contains f.file_path then dedupByFileGo seen rest
    else f :: dedupByFileGo (f.file_path :: seen) rest

/-- `priority_failures`: everything but LOW severity (lines 71–74). -/
def priorityFailures (failures : List Failure) : List Failure :=
  failures.filter (fun f =>
    f.severity = .CRITICAL ∨ f.severity = .HIGH ∨ f.severity = .MEDIUM)

/-- `RootCauseAgent.run`: returns the final state together with the list of
failures submitted to LLM analysis (all grouped failures, decided before any
call returns).  `fallback_triggered` is never written by this agent. -/
def rootCauseRun (llmAvailable : Bool) (llm : Failure → Except String RootCauseJson)
    (fexists : String → Bool) (repo : String) (s : AgentState) :
    AgentState × List Failure :=
  let use_llm := llmAvailable && !s.fallback_triggered
  let grouped := dedupByFileGo [] (priorityFailures s.failures)
  let llmCalls := if use_llm && !grouped.isEmpty then grouped else []
  let afterLlm := s.failures.map (fun f =>
    if llmCalls.any (fun g => g.failure_id == f.failure_id) then
      (analyzeWithLlm llm fexists repo f).1
    else f)
  let finalFailures := afterLlm.map (fun f => analyzeStatic fexists repo f)
  let ev : CITimelineEvent :=
    { iteration := s.iteration
      event_type := "ROOT_CAUSE"
      description := "Root cause analyzed for "
        ++ toString (priorityFailures s.failures).length ++ " failures" }
  ({ s with failures := finalFailures, timeline := s.timeline ++ [ev] }, llmCalls)

/-! ## Concrete instances used by witnesses and counterexamples -/

/-- A one-file file system: `/repo/a.py` holds `"old"`. -/
def c2fs : FS := fun p => if p = "/repo/a.py" then some "old" else none

/-- A draft maker that always rewrites the file to `"new"`. -/
def c2mk : Failure → String → String → Option PatchDraft := fun _ _ _ =>
  some { patch_id := "p1", patch_type := .SYNTAX_CORRECTION,
         patched_code := "new", diff := [], reasoning := "r" }

/-- A test oracle: exit code 1 with two failing tests. -/
def c2rt : FS → TestRun := fun _ => ⟨1, 2, 0, 2, 0⟩

def c2fail : Failure :=
  { failure_id := "f1", failure_type := .SYNTAX, severity := .CRITICAL,
    file_path := "/repo/a.py", message := "m" }

def c2patch : Patch :=
  { patch_id := "p1", failure_id := "f1", patch_type := .SYNTAX_CORRECTION,
    file_path := "/repo/a.py", original_code := "old", patched_code := "new",
    diff := [], line_start := 0, line_end := 0, reasoning := "r" }

/-- A 26-line JavaScript file each of whose lines the colon rule rewrites:
the rule-engine diff then has 52 changed lines, above `PATCH_MAX_LINES`. -/
def c6orig : String := String.intercalate "\n" (List.replicate 26 "if x") ++ "\n"

def c6failure : Failure :=
  { failure_id := "f6", failure_type := .SYNTAX, severity := .CRITICAL,
    file_path := "/repo/app.js", line_number := some 1,
    message := "SyntaxError: Unexpected token" }

def c6fs : FS := fun p => if p = "/repo/app.js" then some c6orig else none

/-- The patch the rule engine emits for `c6failure` on `c6orig`. -/
def c6patch : Patch :=
  { patch_id := ""
    failure_id := "f6"
    patch_type := .SYNTAX_CORRECTION
    file_path := "/repo/app.js"
    original_code := c6orig
    patched_code := (fallbackRules c6orig c6failure).1
    diff := computeDiff c6orig (fallbackRules c6orig c6failure).1 "/repo/app.js"
    line_start := 1
    line_end := 6
    reasoning := "[RULE-BASED] " ++ (fallbackRules c6orig c6failure).2.2 }

/-- Classifier oracles for an empty repository: nothing to report. -/
def c7oracles : ClassifierOracles :=
  { astParse := fun _ => none
    findUndefinedNames := fun _ => []
    fromImports := fun _ => []
    classifyPytest := fun _ _ _ => []
    classifyText := fun _ _ => []
    proactiveScan := fun _ => [] }

/-- A state carrying two previously classified failures into a re-run whose
classification finds nothing. -/
def c7state : AgentState :=
  { repo_language := .PYTHON
    failures :=
      [{ failure_id := "f1", failure_type := .SYNTAX, severity := .CRITICAL,
         file_path := "/repo/a.py", message := "m1" },
       { failure_id := "f2", failure_type := .RUNTIME, severity := .MEDIUM,
         file_path := "/repo/b.py", message := "m2" }] }

def c8fixA : Fix :=
  { fix_id := "x1", failure_id := "f1", patch_id := "p1",
    failure_type := .SYNTAX, file_path := "/repo/a.py", description := "d1",
    patch_type := .SYNTAX_CORRECTION, validated := true }

def c8fixB : Fix :=
  { fix_id := "x2", failure_id := "f2", patch_id := "p2",
    failure_type := .SYNTAX, file_path := "/repo/b.py", description := "d2",
    patch_type := .SYNTAX_CORRECTION, validated := true }

/-- The single commit produced for `[c8fixA, c8fixB]` (same failure type,
two files). -/
def c8commit : Commit :=
  { message := "[AI-AGENT] Fix SYNTAX failures\n\nFiles: a.py, b.py\nRun ID: run\nIteration: 0\nAuto-generated by CI/CD Healing Agent — no manual edits"
    files := ["/repo/a.py", "/repo/b.py"]
    sha := "deadbeef" }

def c9state : AgentState :=
  { failures :=
      [{ failure_id := "f1", failure_type := .RUNTIME, severity := .HIGH,
         file_path := "/repo/a.py", message := "m1" },
       { failure_id := "f2", failure_type := .RUNTIME, severity := .HIGH,
         file_path := "/repo/b.py", message := "m2" }] }

/-- An LLM that always fails rate-limited. -/
def c9llm : Failure → Except String RootCauseJson :=
  fun _ => .error "429 Too Many Requests"

/-- The single validation step of the concrete run above (the patch is
rejected: 2 failures after vs baseline 1). -/
def c2step : ValStep :=
  { patch := c2patch
    fs_before := c2fs
    result := validatePatchResult 1 1
      (c2rt (applyCode c2fs c2patch.file_path c2patch.patched_code)) c2patch.patch_id
    fs_after :=
      if (validatePatchResult 1 1
          (c2rt (applyCode c2fs c2patch.file_path c2patch.patched_code))
          c2patch.patch_id).passed then
        applyCode c2fs c2patch.file_path c2patch.patched_code
      else
        applyCode (applyCode c2fs c2patch.file_path c2patch.patched_code)
          c2patch.file_path c2patch.original_code }

end CIHealer

namespace CIHealer

/-! ## Theorems for the scorer claims -/

/-- **C1**: at the terminal Scorer stage `ci_status` is resolved by the first
matching rule in order — fatal error ⇒ FAILED; every failure has a fix with
its `failure_id` ⇒ SUCCESS; fixes exist and exit code 5 ⇒ SUCCESS; fixes
exist ⇒ PARTIAL; otherwise FAILED — and a SUCCESS status serializes in the
result artifact as `"RESOLVED"`. -/
theorem C1_scorer_status (s : AgentState) :
    (s.fatal_error.isSome → resolveCiStatus s = .FAILED)
    ∧ (s.fatal_error = none →
        (∀ f ∈ s.failures, ∃ fx ∈ s.fixes, fx.failure_id = f.failure_id) →
        resolveCiStatus s = .SUCCESS)
    ∧ (s.fatal_error = none → remainingFailures s.failures s.fixes ≠ 0 →
        s.fixes ≠ [] → s.pytest_exit_code = 5 → resolveCiStatus s = .SUCCESS)
    ∧ (s.fatal_error = none → remainingFailures s.failures s.fixes ≠ 0 →
        s.fixes ≠ [] → s.pytest_exit_code ≠ 5 → resolveCiStatus s = .PARTIAL)
    ∧ (s.fatal_error = none → remainingFailures s.failures s.fixes = 0 →
        resolveCiStatus s = .SUCCESS)
    ∧ (s.fatal_error = none → remainingFailures s.failures s.fixes ≠ 0 →
        s.fixes = [] → resolveCiStatus s = .FAILED)
    ∧ statusMapped .SUCCESS = "RESOLVED" := by
  have hrem : (∀ f ∈ s.failures, ∃ fx ∈ s.fixes, fx.failure_id = f.failure_id) →
      remainingFailures s.failures s.fixes = 0 := by
    intro h
    unfold remainingFailures
    rw [List.length_eq_zero, List.filter_eq_nil_iff]
    intro f hf
    obtain ⟨fx, hfx, hid⟩ := h f hf
    simp only [decide_eq_true_eq, not_not]
    exact List.any_eq_true.2 ⟨fx, hfx, by simp [hid]⟩
  refine ⟨?_, ?_, ?_, ?_, ?_, ?_, rfl⟩
  · intro h; simp [resolveCiStatus, h]
  · intro hfat hall
    simp [resolveCiStatus, hfat, hrem hall]
  · intro hfat hne hfix hexit
    simp [resolveCiStatus, hfat, hne, hexit, List.isEmpty_iff, hfix]
  · intro hfat hne hfix hexit
    simp [resolveCiStatus, hfat, hne, hexit, List.isEmpty_iff, hfix]
  · intro hfat hz
    simp [resolveCiStatus, hfat, hz]
  · intro hfat hne hfix
    rw [hfix] at hne
    simp [resolveCiStatus, hfat, hne, hfix]

/-- **C3**: `total_score = max(0, 100 + speed_bonus − regression_penalty)`
with `speed_bonus = 10` exactly when the elapsed wall-clock time is under
300 s, `regression_penalty = 2·max(0, accepted_fix_count − 20) + 5·Σ
tests_regressed`; consequently `0 ≤ total_score ≤ 110`. -/
theorem C3_score_formula (s : AgentState) (elapsed : Rat) :
    (computeScore s elapsed).total_score =
      max 0 (100 + (if elapsed < 300 then (10 : Rat) else 0)
        - (2 * max 0 ((((s.fixes.filter (fun f => f.validated)).length : Nat) : Rat) - 20)
           + 5 * ((totalRegressions s.validation_results : Nat) : Rat)))
    ∧ 0 ≤ (computeScore s elapsed).total_score
    ∧ (computeScore s elapsed).total_score ≤ 110 := by
  set n := (s.fixes.filter (fun f => f.validated)).length with hn
  set tr := totalRegressions s.validation_results with htr
  have hpen : ((n - 20 : Nat) : Rat) = max 0 ((n : Rat) - 20) := by
    rcases le_total n 20 with h | h
    · rw [Nat.sub_eq_zero_of_le h]
      have : (n : Rat) - 20 ≤ 0 := by
        have : (n : Rat) ≤ 20 := by exact_mod_cast h
        linarith
      simp [max_eq_left this]
    · rw [Nat.cast_sub h]
      have : (0 : Rat) ≤ (n : Rat) - 20 := by
        have : (20 : Rat) ≤ (n : Rat) := by exact_mod_cast h
        linarith
      simp [max_eq_right this]
  have htotal : (computeScore s elapsed).total_score =
      max 0 (100 + (if elapsed < 300 then (10 : Rat) else 0)
        - (((tr : Rat)) * 5 + ((n - 20 : Nat) : Rat) * 2)) := rfl
  refine ⟨?_, ?_, ?_⟩
  · rw [htotal, hpen]
    congr 1
    ring
  · rw [htotal]; exact le_max_left _ _
  · rw [htotal]
    have h1 : (0 : Rat) ≤ ((tr : Rat)) * 5 + ((n - 20 : Nat) : Rat) * 2 := by
      positivity
    have h2 : (if elapsed < 300 then (10 : Rat) else 0) ≤ 10 := by
      split <;> norm_num
    rw [max_le_iff]
    constructor <;> linarith

/-- **C10**: every `ValidationResult` constructed by
`ValidationAgent._validate_patch` leaves `tests_regressed` at its default 0,
so for every run whose validation results all come from the validator the
scorer's regression penalty is exactly the efficiency penalty
`2 · max(0, accepted_fix_count − 20)`. -/
theorem C10_no_regressions_recorded :
    (∀ (prevExit : Int) (baseline : Nat) (run1 : TestRun) (pid : String),
      (validatePatchResult prevExit baseline run1 pid).tests_regressed = 0)
    ∧ (∀ (s : AgentState) (elapsed : Rat),
        (∀ r ∈ s.validation_results, ∃ prevExit baseline run1 pid,
          r = validatePatchResult prevExit baseline run1 pid) →
        (computeScore s elapsed).regression_penalty =
          2 * max 0 ((((s.fixes.filter (fun f => f.validated)).length : Nat) : Rat) - 20)) := by
  have hzero : ∀ (prevExit : Int) (baseline : Nat) (run1 : TestRun) (pid : String),
      (validatePatchResult prevExit baseline run1 pid).tests_regressed = 0 := by
    intro prevExit baseline run1 pid
    simp only [validatePatchResult]
    split
    · rfl
    · split
      · rfl
      · split
        · rfl
        · split <;> rfl
  refine ⟨hzero, ?_⟩
  intro s elapsed hall
  have hsum : totalRegressions s.validation_results = 0 := by
    rw [totalRegressions, List.sum_eq_zero]
    intro x hx
    rw [List.mem_map] at hx
    obtain ⟨r, hr, hrx⟩ := hx
    obtain ⟨p, b, r1, pid, hreq⟩ := hall r hr
    rw [← hrx, hreq, hzero]
  set n := (s.fixes.filter (fun f => f.validated)).length with hn
  have hpen : ((n - 20 : Nat) : Rat) = max 0 ((n : Rat) - 20) := by
    rcases le_total n 20 with h | h
    · rw [Nat.sub_eq_zero_of_le h]
      have : (n : Rat) - 20 ≤ 0 := by
        have : (n : Rat) ≤ 20 := by exact_mod_cast h
        linarith
      simp [max_eq_left this]
    · rw [Nat.cast_sub h]
      have : (0 : Rat) ≤ (n : Rat) - 20 := by
        have : (20 : Rat) ≤ (n : Rat) := by exact_mod_cast h
        linarith
      simp [max_eq_right this]
  have hrp : (computeScore s elapsed).regression_penalty =
      ((totalRegressions s.validation_results : Nat) : Rat) * 5
        + ((n - 20 : Nat) : Rat) * 2 := rfl
  rw [hrp, hsum, hpen]
  push_cast
  ring

/-- Witness for C10 at concrete inputs: a state with one validator-produced
validation result and 3 validated fixes has regression penalty 0. -/
theorem C10_no_regressions_recorded_witness :
    (computeScore
      { validation_results := [validatePatchResult 1 1 ⟨1, 2, 1, 1, 0⟩ "p1"]
        fixes := [{ fix_id := "x1", failure_id := "f1", patch_id := "p1",
                    failure_type := .SYNTAX, file_path := "a.py",
                    description := "d", patch_type := .SYNTAX_CORRECTION,
                    validated := true }] } 10).regression_penalty =
      2 * max 0 ((1 : Rat) - 20) := by
  have h := C10_no_regressions_recorded.2
    { validation_results := [validatePatchResult 1 1 ⟨1, 2, 1, 1, 0⟩ "p1"]
      fixes := [{ fix_id := "x1", failure_id := "f1", patch_id := "p1",
                  failure_type := .SYNTAX, file_path := "a.py",
                  description := "d", patch_type := .SYNTAX_CORRECTION,
                  validated := true }] } 10
    (by intro r hr
        refine ⟨1, 1, ⟨1, 2, 1, 1, 0⟩, "p1", ?_⟩
        simpa using hr)
  simpa using h

/-- **C5 (counterexample)**: the claim says the no-test-suite rule accepts
only when the re-run exit code is 5 AND there was no prior failing test.  In
the code the guard is a disjunction (`validation_agent.py`, line 104): with 3
prior classified failures (`baseline = 3`) and a re-run exiting 5, the patch
is auto-accepted, contradicting the claim. -/
theorem C5_no_test_suite_counterexample :
    (validatePatchResult 1 3 ⟨5, 0, 0, 0, 0⟩ "p1").passed = true
    ∧ (3 : Nat) ≠ 0 ∧ (5 : Int) = 5 := by
  refine ⟨rfl, by decide, rfl⟩

/-- **C5 (amended)**: the Validator's no-test-suite rule accepts whenever the
re-run's exit code is 5 — even when prior failures were classified — or when
no prior failure was recorded and the exit code is not 1; an accepted patch
under this rule reports `tests_fixed = 1` and no new failures. -/
theorem C5_no_test_suite_rule (prevExit : Int) (baseline : Nat) (run1 : TestRun)
    (pid : String)
    (h : run1.exit_code = 5 ∨ (baseline = 0 ∧ run1.exit_code ≠ 1)) :
    (validatePatchResult prevExit baseline run1 pid).passed = true
    ∧ (validatePatchResult prevExit baseline run1 pid).tests_fixed = 1
    ∧ (validatePatchResult prevExit baseline run1 pid).new_failures_introduced = 0 := by
  rcases h with h | ⟨h0, h1⟩
  · simp [validatePatchResult, h]
  · simp [validatePatchResult, h0, h1]

/-- Witness for the amended C5: exit code 5 with 3 prior failures is
accepted. -/
theorem C5_no_test_suite_rule_witness :
    (validatePatchResult 1 3 ⟨5, 0, 0, 0, 0⟩ "p1").passed = true
    ∧ (validatePatchResult 1 3 ⟨5, 0, 0, 0, 0⟩ "p1").tests_fixed = 1
    ∧ (validatePatchResult 1 3 ⟨5, 0, 0, 0, 0⟩ "p1").new_failures_introduced = 0 :=
  C5_no_test_suite_rule 1 3 ⟨5, 0, 0, 0, 0⟩ "p1" (Or.inl rfl)

/-! ## Rollback correctness (C2) -/

/-- Every patch emitted by the generator loop carries the file content read
from the file system at generation time, and targets a file outside the
already-processed set. -/
theorem generatePatches_read (mk : Failure → String → String → Option PatchDraft)
    (fs : FS) :
    ∀ (fails : List Failure) (processed : List String) (p : Patch),
      p ∈ generatePatches mk fs fails processed →
      fs p.file_path = some p.original_code ∧ p.file_path ∉ processed := by
  intro fails
  induction fails with
  | nil => intro processed p hp; simp [generatePatches] at hp
  | cons f rest ih =>
    intro processed p hp
    rw [generatePatches] at hp
    split at hp
    · exact ih processed p hp
    · rename_i hskip
      split at hp
      · exact ih processed p hp
      · rename_i orig horig
        split at hp
        · exact ih processed p hp
        · rcases List.mem_cons.1 hp with hhead | htail
          · subst hhead
            refine ⟨horig, ?_⟩
            intro hmem
            exact hskip (Or.inl hmem)
          · have := ih (targetFile f :: processed) p htail
            exact ⟨this.1, fun hmem => this.2 (List.mem_cons_of_mem _ hmem)⟩

/-- The generator emits pairwise-distinct target files within one iteration
(`processed_files` in `PatchGeneratorAgent.run`). -/
theorem generatePatches_distinct (mk : Failure → String → String → Option PatchDraft)
    (fs : FS) :
    ∀ (fails : List Failure) (processed : List String),
      (generatePatches mk fs fails processed).Pairwise
        (fun a b => a.file_path ≠ b.file_path) := by
  intro fails
  induction fails with
  | nil => intro processed; simp [generatePatches]
  | cons f rest ih =>
    intro processed
    rw [generatePatches]
    split
    · exact ih processed
    · split
      · exact ih processed
      · split
        · exact ih processed
        · refine List.Pairwise.cons ?_ (ih (targetFile f :: processed))
          intro q hq
          have := (generatePatches_read mk fs rest (targetFile f :: processed) q hq).2
          simp only [List.mem_cons, not_or] at this
          exact fun hcon => this.1 hcon.symm

/-- During the sequential validation loop, if the current file system holds
each remaining patch's `original_code` and the patches target pairwise
distinct files, then every rejected patch's file is restored to exactly its
pre-apply content. -/
theorem validateLoop_rollback (runTests : FS → TestRun) (prevExit : Int)
    (baseline : Nat) :
    ∀ (ps : List Patch) (fs : FS),
      (∀ q ∈ ps, fs q.file_path = some q.original_code) →
      ps.Pairwise (fun a b => a.file_path ≠ b.file_path) →
      ∀ step ∈ validateLoop runTests prevExit baseline ps fs,
        step.result.passed = false →
        step.fs_after step.patch.file_path = step.fs_before step.patch.file_path := by
  intro ps
  induction ps with
  | nil => intro fs _ _ step hstep; simp [validateLoop] at hstep
  | cons p rest ih =>
    intro fs hinv hpw step hstep hrej
    rcases List.pairwise_cons.mp hpw with ⟨hhd, htlpw⟩
    simp only [validateLoop] at hstep
    rcases List.mem_cons.1 hstep with hhead | htail
    · subst hhead
      have hrej' : (validatePatchResult prevExit baseline
          (runTests (applyCode fs p.file_path p.patched_code)) p.patch_id).passed
          = false := hrej
      show (if (validatePatchResult prevExit baseline
              (runTests (applyCode fs p.file_path p.patched_code)) p.patch_id).passed = true
            then applyCode fs p.file_path p.patched_code
            else applyCode (applyCode fs p.file_path p.patched_code)
              p.file_path p.original_code) p.file_path = fs p.file_path
      rw [hrej']
      simp [applyCode, hinv p (List.mem_cons_self p rest)]
    · refine ih _ ?_ htlpw step htail hrej
      intro q hq
      have hne : q.file_path ≠ p.file_path := fun h => hhd q hq h.symm
      have hfs1 : applyCode fs p.file_path p.patched_code q.file_path
          = fs q.file_path := by
        simp [applyCode, hne]
      split
      · rw [hfs1]; exact hinv q (List.mem_cons_of_mem _ hq)
      · show applyCode (applyCode fs p.file_path p.patched_code)
            p.file_path p.original_code q.file_path = some q.original_code
        rw [show applyCode (applyCode fs p.file_path p.patched_code)
              p.file_path p.original_code q.file_path
            = applyCode fs p.file_path p.patched_code q.file_path by
            simp [applyCode, hne], hfs1]
        exact hinv q (List.mem_cons_of_mem _ hq)

/-- **C2**: for every patch the Validator rejects, the target file after
rollback is byte-identical to its content just before the patch was applied:
the generator reads `original_code` from the file at generation time, emits
at most one patch per file, and the validator restores `original_code` on
rejection. -/
theorem C2_rollback (mk : Failure → String → String → Option PatchDraft)
    (fs₀ : FS) (failures : List Failure) (runTests : FS → TestRun)
    (prevExit : Int) (baseline : Nat) :
    ∀ step ∈ validateLoop runTests prevExit baseline
        (generatePatches mk fs₀ failures []) fs₀,
      step.result.passed = false →
      step.fs_after step.patch.file_path = step.fs_before step.patch.file_path :=
  validateLoop_rollback runTests prevExit baseline
    (generatePatches mk fs₀ failures []) fs₀
    (fun q hq => (generatePatches_read mk fs₀ failures [] q hq).1)
    (generatePatches_distinct mk fs₀ failures [])

/-- Witness for C1 at a concrete state: one failure, a matching fix, no fatal
error ⇒ SUCCESS, serialized `"RESOLVED"`. -/
theorem C1_scorer_status_witness :
    resolveCiStatus
      { failures := [{ failure_id := "f1", failure_type := .SYNTAX,
                       severity := .CRITICAL, file_path := "a.py", message := "m" }]
        fixes := [{ fix_id := "x1", failure_id := "f1", patch_id := "p1",
                    failure_type := .SYNTAX, file_path := "a.py",
                    description := "d", patch_type := .SYNTAX_CORRECTION,
                    validated := true }] } = .SUCCESS := by
  exact (C1_scorer_status _).2.1 rfl (by decide)

/-- Witness for C2: in the concrete run (`c2fs`, `c2mk`, `c2rt`, baseline 1)
the single patch is rejected and its file is restored to its pre-apply
content. -/
theorem C2_rollback_witness :
    c2step.fs_after c2step.patch.file_path = c2step.fs_before c2step.patch.file_path :=
  C2_rollback c2mk c2fs [c2fail] c2rt 1 1 c2step (List.Mem.head _) rfl

/-! ## Convergence (C4) -/

/-- If the gate decides to retry, the iteration counter was strictly below
`max_retries`. -/
theorem shouldContinue_retry_lt (t : AgentState)
    (h : (shouldContinue t).1 = .retry) : t.iteration < t.max_retries := by
  unfold shouldContinue at h
  split at h
  · simp at h
  · split at h
    · simp at h
    · split at h
      · simp at h
      · split at h
        · simp at h
        · split at h
          · simp at h
          · rename_i hle
            omega

/-- On a retry the gate increments `iteration`, multiplies the temperature by
0.75 (clamped below by `temperature_min`), and touches nothing else that the
loop bound depends on. -/
theorem shouldContinue_retry_upd (t : AgentState)
    (h : (shouldContinue t).1 = .retry) :
    (shouldContinue t).2.iteration = t.iteration + 1
    ∧ (shouldContinue t).2.max_retries = t.max_retries
    ∧ (shouldContinue t).2.current_temperature =
        max t.temperature_min (t.current_temperature * (3/4)) := by
  unfold shouldContinue at h ⊢
  split at h
  · simp at h
  · split at h
    · simp at h
    · split at h
      · simp at h
      · split at h
        · simp at h
        · split at h
          · simp at h
          · rename_i h1 h2 h3 h4 h5
            rw [if_neg h1, if_neg h2, if_neg h3, if_neg h4, if_neg h5]
            exact ⟨rfl, rfl, rfl⟩

/-- If any terminal condition holds, the gate decides `score`. -/
theorem shouldContinue_score (t : AgentState)
    (h : t.fatal_error.isSome ∨ remainingFailures t.failures t.fixes = 0
      ∨ (t.pytest_exit_code = 5 ∧ 0 < t.fixes.length)
      ∨ (t.patches.isEmpty ∧ 0 < t.iteration)
      ∨ t.max_retries ≤ t.iteration) :
    (shouldContinue t).1 = .score := by
  unfold shouldContinue
  split
  · rfl
  · split
    · rfl
    · split
      · rfl
      · split
        · rfl
        · split
          · rfl
          · rename_i h1 h2 h3 h4 h5
            exfalso
            rcases h with h | h | h | h | h
            · exact h1 h
            · exact h2 h
            · exact h3 h
            · exact h4 h
            · exact h5 h

/-- Fuel bound for the loop: with `stages` preserving `iteration` and
`max_retries`, `max_retries − iteration + 1` pipeline iterations always
reach the scorer. -/
theorem runLoop_isSome (stages : AgentState → AgentState)
    (hpres : ∀ t, (stages t).iteration = t.iteration
      ∧ (stages t).max_retries = t.max_retries) :
    ∀ (fuel : Nat) (s : AgentState), s.max_retries ≤ s.iteration + fuel →
      (runLoop stages (fuel + 1) s).isSome := by
  intro fuel
  induction fuel with
  | zero =>
    intro s hle
    rw [runLoop]
    rcases hsc : shouldContinue (stages s) with ⟨d, s''⟩
    cases d
    · have := shouldContinue_retry_lt (stages s) (by rw [hsc])
      rw [(hpres s).1, (hpres s).2] at this
      omega
    · simp
  | succ fuel ih =>
    intro s hle
    rw [runLoop]
    rcases hsc : shouldContinue (stages s) with ⟨d, s''⟩
    cases d
    · have hretry : (shouldContinue (stages s)).1 = .retry := by rw [hsc]
      have hupd := shouldContinue_retry_upd (stages s) hretry
      simp only
      refine ih s'' ?_
      have h1 : s''.iteration = s.iteration + 1 := by
        have := hupd.1; rw [hsc] at this; rw [this, (hpres s).1]
      have h2 : s''.max_retries = s.max_retries := by
        have := hupd.2.1; rw [hsc] at this; rw [this, (hpres s).2]
      omega
    · simp

/-- **C4**: the healing pipeline terminates in at most `max_retries + 1`
iterations for every input; the gate decides `score` under any of the listed
terminal conditions, and otherwise increments `iteration` and sets
`current_temperature := max(temperature_min, current_temperature × 0.75)`. -/
theorem C4_convergence (stages : AgentState → AgentState)
    (hpres : ∀ t, (stages t).iteration = t.iteration
      ∧ (stages t).max_retries = t.max_retries)
    (s : AgentState) (h0 : s.iteration = 0) :
    (runLoop stages (s.max_retries + 1) s).isSome
    ∧ (∀ t, (t.fatal_error.isSome ∨ remainingFailures t.failures t.fixes = 0
        ∨ (t.pytest_exit_code = 5 ∧ 0 < t.fixes.length)
        ∨ (t.patches.isEmpty ∧ 0 < t.iteration)
        ∨ t.max_retries ≤ t.iteration) → (shouldContinue t).1 = .score)
    ∧ (∀ t, (shouldContinue t).1 = .retry →
        (shouldContinue t).2.iteration = t.iteration + 1
        ∧ (shouldContinue t).2.current_temperature =
            max t.temperature_min (t.current_temperature * (3/4))) := by
  refine ⟨?_, shouldContinue_score, ?_⟩
  · exact runLoop_isSome stages hpres s.max_retries s (by omega)
  · intro t ht
    exact ⟨(shouldContinue_retry_upd t ht).1, (shouldContinue_retry_upd t ht).2.2⟩

/-- Witness for C4 with the identity pipeline body and the default initial
state (`max_retries = 5`, `iteration = 0`): the loop reaches the scorer
within 6 iterations. -/
theorem C4_convergence_witness :
    (runLoop (fun t => t) (({} : AgentState).max_retries + 1) ({} : AgentState)).isSome :=
  (C4_convergence (fun t => t) (fun _ => ⟨rfl, rfl⟩) {} rfl).1

/-! ## Rule-engine patch gates (C6) -/

set_option maxRecDepth 8000 in
/-- **C6 (counterexample)**: the claim says every rule-engine patch respects
the diff-size gate (≤ `PATCH_MAX_LINES = 50` changed lines).  On a 26-line
file whose every line triggers the colon rule, `_fallback_patch` emits a
patch whose unified diff has 52 changed lines: the size gate is applied only
on the LLM path (`_generate_patch`), never in `_fallback_patch`. -/
theorem C6_size_gate_counterexample :
    ((fallbackPatch (fun _ => false) c6fs c6failure "/repo/app.js").map
      (fun p => diffChangedLines p.diff)) = some 52
    ∧ settings.PATCH_MAX_LINES < 52 := by
  exact ⟨by decide, by decide⟩

/-- **C6 (amended)**: every patch the rule engine emits passes the syntax
gate (for Python targets the patched text must parse) and changes the file;
the diff-size gate is not applied on the rule-engine path. -/
theorem C6_rule_gate (pyParse : String → Bool) (fs : FS) (failure : Failure)
    (target : String) (p : Patch)
    (h : fallbackPatch pyParse fs failure target = some p) :
    validateSyntax pyParse p.patched_code target = true
    ∧ p.patched_code ≠ p.original_code
    ∧ p.file_path = target := by
  unfold fallbackPatch at h
  split at h
  · simp at h
  · rename_i original_code horig
    dsimp only at h
    split at h
    · simp at h
    · rename_i hchanged
      split at h
      · simp at h
      · rename_i hsyn
        have hp := Option.some.inj h
        rw [← hp]
        refine ⟨?_, ?_, rfl⟩
        · simpa using hsyn
        · simpa using hchanged

set_option maxRecDepth 8000 in
/-- Witness for the amended C6: the concrete rule-engine patch on the
JavaScript file passes the (trivial) syntax gate and differs from the
original. -/
theorem C6_rule_gate_witness :
    validateSyntax (fun _ => false) c6patch.patched_code "/repo/app.js" = true
    ∧ c6patch.patched_code ≠ c6patch.original_code
    ∧ c6patch.file_path = "/repo/app.js" :=
  C6_rule_gate (fun _ => false) c6fs c6failure "/repo/app.js" c6patch rfl

/-! ## Classifier replacement of the failure list (C7) -/

/-- **C7 (counterexample)**: the claim says `RunState.failures` never shrinks
across iterations.  Re-running the classifier on a state holding two
previously classified failures, over an empty repository and empty test
output, leaves zero failures: the list shrank from 2 to 0. -/
theorem C7_failures_shrink_counterexample :
    (classifierRun c7oracles c7state).failures.length < c7state.failures.length := by
  decide

/-- **C7 (amended)**: `FailureClassifierAgent.run` REPLACES `state.failures`
with the freshly classified list, computed independently of the previous
list (so the list can shrink across iterations); unfixed failures are
tracked by intersecting `failures` with `fixes` in the convergence gate and
scorer, not by list membership. -/
theorem C7_classifier_replaces (o : ClassifierOracles) (s : AgentState)
    (l : List Failure) :
    (classifierRun o { s with failures := l }).failures
      = (classifierRun o s).failures
    ∧ (classifierRun o s).failures = classifierFailures o s := ⟨rfl, rfl⟩

/-! ## Commit grouping (C8) -/

/-- **C8 (counterexample)**: the claim mandates exactly one commit per
accepted Fix.  Two distinct fixes of the same failure type on two existing
files produce ONE commit, not two: `_group_and_commit` groups fixes by
failure type (≤ 10 files per commit). -/
theorem C8_one_commit_counterexample :
    (groupAndCommit (fun _ => true) (fun _ => "deadbeef") "run" 0
      [c8fixA, c8fixB]).length = 1
    ∧ [c8fixA, c8fixB].length = 2
    ∧ c8fixA ≠ c8fixB := by
  refine ⟨by decide, rfl, by decide⟩

theorem insertStable_length {α : Type} (le : α → α → Bool) (x : α) :
    ∀ l : List α, (insertStable le x l).length = l.length + 1 := by
  intro l
  induction l with
  | nil => rfl
  | cons y ys ih =>
    unfold insertStable
    split
    · simp [ih]
    · simp

theorem pySort_length {α : Type} (le : α → α → Bool) (l : List α) :
    (pySort le l).length = l.length := by
  suffices h : ∀ (l : List α) (acc : List α),
      (l.foldl (fun acc x => insertStable le x acc) acc).length
        = acc.length + l.length by
    simpa using h l []
  intro l
  induction l with
  | nil => intro acc; simp
  | cons x xs ih =>
    intro acc
    rw [List.foldl_cons, ih, insertStable_length]
    simp only [List.length_cons]
    omega

/-- **C8 (amended)**: the Commit Optimizer sorts fixes by
`(failure_type, file_path)` and produces at most one commit per distinct
failure type; each commit stages at most 10 files and its message starts
with `[AI-AGENT] Fix <type>`.  Per-fix line numbers and descriptions do not
appear in the message. -/
theorem C8_grouped_commits (fexists : String → Bool) (gitSha : String → String)
    (run_id : String) (iteration : Nat) (fixes : List Fix) :
    (∀ c ∈ groupAndCommit fexists gitSha run_id iteration fixes,
      (∃ rest, c.message = "[AI-AGENT] Fix " ++ rest) ∧ c.files.length ≤ 10)
    ∧ (groupAndCommit fexists gitSha run_id iteration fixes).length
        ≤ (dedupStrings []
            ((pySort fixSortKeyLe fixes).map (fun f => f.failure_type.str))).length := by
  constructor
  · intro c hc
    unfold groupAndCommit at hc
    rw [List.mem_filterMap] at hc
    obtain ⟨key, hkey, hsome⟩ := hc
    dsimp only at hsome
    split at hsome
    · simp at hsome
    · have hc' := Option.some.inj hsome
      rw [← hc']
      constructor
      · refine ⟨key ++ (" failures\n\nFiles: "
          ++ (String.intercalate ", "
              (((((pySort fixSortKeyLe fixes).filter
                    (fun f => f.failure_type.str = key)).take 10).filter
                  (fun f => fexists f.file_path)).map (fun f => pyBasename f.file_path))
            ++ ("\nRun ID: " ++ (run_id ++ ("\nIteration: "
              ++ (toString iteration
                ++ "\nAuto-generated by CI/CD Healing Agent — no manual edits")))))), ?_⟩
        rw [show ("[AI-AGENT] Fix " : String) = settings.GITHUB_COMMIT_TAG ++ " Fix "
          from rfl]
        simp only [String.append_assoc]
      · have h1 : ∀ (l : List Fix),
            (((l.take 10).filter (fun f => fexists f.file_path)).map
              (fun f => f.file_path)).length ≤ 10 := by
          intro l
          rw [List.length_map]
          refine le_trans (List.length_filter_le _ _) ?_
          rw [List.length_take]
          exact min_le_left _ _
        exact h1 _
  · unfold groupAndCommit
    calc _ ≤ (pySort pyStrLe (dedupStrings []
          ((pySort fixSortKeyLe fixes).map (fun f => f.failure_type.str)))).length :=
        List.length_filterMap_le _ _
    _ = _ := pySort_length _ _

/-- The single commit of the two-fix counterexample run. -/
theorem C8_grouped_commits_witness :
    (∃ rest, c8commit.message = "[AI-AGENT] Fix " ++ rest)
    ∧ c8commit.files.length ≤ 10 :=
  (C8_grouped_commits (fun _ => true) (fun _ => "deadbeef") "run" 0
    [c8fixA, c8fixB]).1 c8commit (by decide)

/-! ## Rate-limit handling in the Root-Cause Resolver (C9) -/

/-- **C9 (counterexample)**: the claim says a rate-limited LLM call in the
Root-Cause Resolver sets `fallback_triggered` and stops further LLM calls in
the iteration.  With two grouped failures and an LLM that always fails with
`429`, both analyses are still submitted (2 LLM calls) and
`fallback_triggered` remains `false`. -/
theorem C9_rate_limit_counterexample :
    isRateLimitErr "429 Too Many Requests" = true
    ∧ (rootCauseRun true c9llm (fun _ => false) "/repo" c9state).1.fallback_triggered
        = false
    ∧ (rootCauseRun true c9llm (fun _ => false) "/repo" c9state).2.length = 2 := by
  refine ⟨by decide, by decide, by decide⟩

/-- **C9 (amended)**: the Root-Cause Resolver never writes
`fallback_triggered`; the set of failures submitted to LLM analysis is fixed
before any result returns (so it is independent of LLM outcomes, and equals
all per-file grouped priority failures whenever the LLM is available and
fallback is not yet triggered); a rate-limited call falls back to static
analysis for its failure and returns the stop signal `false`. -/
theorem C9_rate_limit_behavior :
    (∀ (llmAvailable : Bool) (llm : Failure → Except String RootCauseJson)
        (fexists : String → Bool) (repo : String) (s : AgentState),
      (rootCauseRun llmAvailable llm fexists repo s).1.fallback_triggered
        = s.fallback_triggered)
    ∧ (∀ (llmAvailable : Bool) (llm llm' : Failure → Except String RootCauseJson)
        (fexists : String → Bool) (repo : String) (s : AgentState),
      (rootCauseRun llmAvailable llm fexists repo s).2
        = (rootCauseRun llmAvailable llm' fexists repo s).2)
    ∧ (∀ (llm : Failure → Except String RootCauseJson) (fexists : String → Bool)
        (repo : String) (s : AgentState),
      s.fallback_triggered = false →
      (rootCauseRun true llm fexists repo s).2
        = dedupByFileGo [] (priorityFailures s.failures))
    ∧ (∀ (llm : Failure → Except String RootCauseJson) (fexists : String → Bool)
        (repo : String) (f : Failure) (e : String),
      hasContext f = true → llm f = .error e → isRateLimitErr e = true →
      (analyzeWithLlm llm fexists repo f).2 = false
      ∧ (analyzeWithLlm llm fexists repo f).1 = analyzeStatic fexists repo f) := by
  refine ⟨fun _ _ _ _ _ => rfl, fun _ _ _ _ _ _ => rfl, ?_, ?_⟩
  · intro llm fexists repo s hfb
    unfold rootCauseRun
    rw [hfb]
    dsimp only
    rcases hg : (dedupByFileGo [] (priorityFailures s.failures)).isEmpty with _ | _
    · simp [hg]
    · simp [hg, List.isEmpty_iff.mp hg]
  · intro llm fexists repo f e hctx herr hrate
    unfold analyzeWithLlm
    rw [hctx, herr]
    simp [hrate]

/-- Witness for the amended C9 at a concrete rate-limited failure. -/
theorem C9_rate_limit_behavior_witness :
    (analyzeWithLlm c9llm (fun _ => false) "/repo"
      { failure_id := "f1", failure_type := .RUNTIME, severity := .HIGH,
        file_path := "/repo/a.py", message := "m1" }).2 = false
    ∧ (analyzeWithLlm c9llm (fun _ => false) "/repo"
      { failure_id := "f1", failure_type := .RUNTIME, severity := .HIGH,
        file_path := "/repo/a.py", message := "m1" }).1
      = analyzeStatic (fun _ => false) "/repo"
        { failure_id := "f1", failure_type := .RUNTIME, severity := .HIGH,
          file_path := "/repo/a.py", message := "m1" } :=
  C9_rate_limit_behavior.2.2.2 c9llm (fun _ => false) "/repo"
    { failure_id := "f1", failure_type := .RUNTIME, severity := .HIGH,
      file_path := "/repo/a.py", message := "m1" }
    "429 Too Many Requests" (by decide) rfl (by decide)

end CIHealer
